import Mathlib

set_option maxHeartbeats 1000000

namespace Histbook

/-- Python value domain for the constants that flow through `expression.py`:
integer and string literals and set literals built from them. -/
inductive Val where
  | int : Int → Val
  | str : String → Val
  | set : List Val → Val
deriving Repr

/-- Symbolic expression nodes, mirroring the classes of `expression.py`
(`Const`, `Name`, `Call`, `UnaryOp`, `BinOp`, `Relation`, `Interval`,
`And`, `Or`).  Because `Call.__init__(self, fcn, *args)` stores whatever
positional values it receives, and the call sites pass already-built tuples,
the `args` lists may hold raw Python tuples (`tup`) and — because of the
missing `raise` on line 271 — the value `None` (`pynone`). -/
inductive Obj where
  | const : Val → Obj
  | name : String → Obj
  | call : String → List Obj → Obj
  | unaryOp : String → List Obj → Obj
  | binOp : String → List Obj → Obj
  | relation : String → Obj → Obj → Obj
  | interval : Obj → Obj → Obj → Bool → Obj
  | and : List Obj → Obj
  | or : List Obj → Obj
  | tup : List Obj → Obj
  | pynone : Obj
deriving Repr

/-- Embeds `isinstance(x, Const)`. -/
def Obj.isConst : Obj → Bool
  | .const _ => true
  | _ => false

/-- Embeds `isinstance(x, And)`. -/
def Obj.isAnd : Obj → Bool
  | .and _ => true
  | _ => false

/-- Embeds `isinstance(x, Or)`. -/
def Obj.isOr : Obj → Bool
  | .or _ => true
  | _ => false

/-- Embeds `isinstance(x, Relation)`. -/
def Obj.isRelation : Obj → Bool
  | .relation _ _ _ => true
  | _ => false

/-- Embeds `isinstance(x, BinOp)`. -/
def Obj.isBinOp : Obj → Bool
  | .binOp _ _ => true
  | _ => false

/-- Embeds `isinstance(x, UnaryOp)`. -/
def Obj.isUnaryOp : Obj → Bool
  | .unaryOp _ _ => true
  | _ => false

/-- Embeds the `.args` attribute of `Call` (hence `UnaryOp`, `BinOp`) and
`Logical` (`And`, `Or`).  The other classes have no `args` attribute; reading
it would raise `AttributeError`, and no reachable code path does so — the
catch-all returns `[]` only to make the function total. -/
def Obj.args : Obj → List Obj
  | .call _ a => a
  | .unaryOp _ a => a
  | .binOp _ a => a
  | .and a => a
  | .or a => a
  | _ => []

/-- Embeds the `.fcn` attribute of `Call`, `UnaryOp` and `BinOp`.  It is only
ever read behind an `isinstance` guard for one of those classes, so the
catch-all default is never reached. -/
def Obj.fcnAttr : Obj → String
  | .call f _ => f
  | .unaryOp f _ => f
  | .binOp f _ => f
  | _ => ""

/-- Outcomes of the failure channel of the embedding.  The first six
constructors are the Python exceptions the source can raise:
`expressionError` is the classified grammar/semantic error
(`ExpressionError`, line 38); `typeError` is the container-level
`TypeError` of line 284 and the operand-type `TypeError`s raised inside
the `calculate` lambdas; `nameError`, `keyError`, `zeroDivisionError` and
`assertionError` are the built-ins raised by unguarded operations.  The
last two constructors are not exceptions but explicit abstraction
boundaries of the model: `unmodelledFloat` marks an integer power with a
negative exponent and nonzero base, where Python computes a float — a
value outside the modelled domain — and `unmodelledFormat` marks string
%-formatting whose template contains a conversion specifier, where
Python's printf machinery deterministically produces a formatted string or
raises, depending on the specifiers and the argument; the model stops
tracking the computation at these two points, and no claim theorem
depends on what lies beyond them. -/
inductive PyErr where
  | expressionError : String → PyErr
  | typeError : String → PyErr
  | nameError : String → PyErr
  | keyError : String → PyErr
  | zeroDivisionError : PyErr
  | assertionError : PyErr
  | unmodelledFloat : PyErr
  | unmodelledFormat : String → Val → PyErr
deriving Repr

mutual

/-- Boolean structural equality on `Val`, modelling Python equality on the
constant values (used for set membership during `set(...)` construction
and by the set operators). -/
def Val.beq : Val → Val → Bool
  | .int a, .int b => a == b
  | .str a, .str b => a == b
  | .set a, .set b => Val.beqList a b
  | _, _ => false

/-- Pointwise `Val.beq` on lists. -/
def Val.beqList : List Val → List Val → Bool
  | [], [] => true
  | a :: as, b :: bs => Val.beq a b && Val.beqList as bs
  | _, _ => false

end

instance : BEq Val := ⟨Val.beq⟩

/-- Models Python `set(...)` construction from a list of already-known
constant values: duplicates are dropped, first occurrences kept.  (Python
sets are unordered; representing them by their insertion-ordered distinct
elements is adequate here because no claim compares set constants.
Python would also reject unhashable — i.e. set-valued — elements; the
model does not track hashability, which no claim exercises either.) -/
def pySet (l : List Val) : List Val :=
  l.foldl (fun acc v => if acc.contains v then acc else acc ++ [v]) []

/-- Python set union (`a | b`) on the insertion-ordered-distinct
representation: the elements of `a`, then the elements of `b` not already
present. -/
def pySetUnion (a b : List Val) : List Val :=
  a ++ b.filter (fun v => !a.contains v)

/-- Python set intersection (`a & b`). -/
def pySetInter (a b : List Val) : List Val :=
  a.filter (fun v => b.contains v)

/-- Python set difference (`a - b`). -/
def pySetDiff (a b : List Val) : List Val :=
  a.filter (fun v => !b.contains v)

/-- Python symmetric set difference (`a ^ b`). -/
def pySetSymmDiff (a b : List Val) : List Val :=
  a.filter (fun v => !b.contains v) ++ b.filter (fun v => !a.contains v)

/-- Python string repetition (`s * n` and `n * s`): `n` copies of `s`, the
empty string when `n` is not positive. -/
def pyStrRepeat (s : String) (n : Int) : String :=
  String.join (List.replicate n.toNat s)

/-- The `inverse` table of `Expr.parse` (lines 65-72).  A key outside the
table would raise `KeyError`, hence the `Option`. -/
def inverse : String → Option String
  | "==" => some ("!=")
  | "!=" => some ("==")
  | "<" => some (">=")
  | "<=" => some (">")
  | ">" => some ("<=")
  | ">=" => some ("<")
  | "in" => some ("not in")
  | "not in" => some ("in")
  | _ => none

/-- The `calculate` table of `Expr.parse` (lines 74-83): each entry applies
the corresponding Python operator to the two constant values, over the
modelled value domain of integers, strings and sets.  The codebase is from
the Python-2 era (it relies on the `meta` decompiler), so `/` on integers
is floor division like `//`; `%` on integers is Python's floor-signed
modulus (`Int.fmod`); the bitwise operators act on arbitrary-precision
two's-complement integers (`Int.lor`, `Int.land`, `Int.xor`) and, on two
sets, compute union, intersection and symmetric difference; `-` on two
sets is set difference; `*` between a string and an integer is string
repetition.  Division and modulus by zero raise `ZeroDivisionError`, as
does a negative power of zero.  Two outcomes leave the modelled domain and
are marked rather than computed: a negative power of a nonzero integer is
a Python float (`unmodelledFloat`), and `%` with a string left operand
whose template contains a `%` engages the printf machinery
(`unmodelledFormat`) — while a specifier-free template with any of the
modelled (non-mapping) right operands genuinely raises
`TypeError("not all arguments converted during string formatting")`.
Every remaining operand combination — mismatched types such as `int + str`,
`set + set`, `str - str`, `set * int`, or a bitwise operator on strings —
raises `TypeError` in Python, which the catch-all reflects. -/
def calculate (fcn : String) (x y : Val) : Except PyErr Val :=
  match fcn, x, y with
  | "+", .int a, .int b => .ok (.int (a + b))
  | "+", .str a, .str b => .ok (.str (a ++ b))
  | "-", .int a, .int b => .ok (.int (a - b))
  | "-", .set a, .set b => .ok (.set (pySetDiff a b))
  | "*", .int a, .int b => .ok (.int (a * b))
  | "*", .str a, .int b => .ok (.str (pyStrRepeat a b))
  | "*", .int a, .str b => .ok (.str (pyStrRepeat b a))
  | "/", .int a, .int b =>
      if b = 0 then .error .zeroDivisionError else .ok (.int (Int.fdiv a b))
  | "//", .int a, .int b =>
      if b = 0 then .error .zeroDivisionError else .ok (.int (Int.fdiv a b))
  | "%", .int a, .int b =>
      if b = 0 then .error .zeroDivisionError else .ok (.int (Int.fmod a b))
  | "%", .str a, b =>
      if a.contains '%' then .error (.unmodelledFormat a b)
      else .error
        (.typeError ("not all arguments converted during string formatting"))
  | "**", .int a, .int b =>
      if b < 0 then
        if a = 0 then .error .zeroDivisionError else .error .unmodelledFloat
      else .ok (.int (a ^ b.toNat))
  | "|", .int a, .int b => .ok (.int (Int.lor a b))
  | "|", .set a, .set b => .ok (.set (pySetUnion a b))
  | "&", .int a, .int b => .ok (.int (Int.land a b))
  | "&", .set a, .set b => .ok (.set (pySetInter a b))
  | "^", .int a, .int b => .ok (.int (Int.xor a b))
  | "^", .set a, .set b => .ok (.set (pySetSymmDiff a b))
  | _, _, _ => .error (.typeError ("unsupported operand types"))

/-- Helper bound used by the termination argument of `not_`: filtering a
list never increases its `sizeOf`. -/
theorem sizeOf_filter_le (p : Obj → Bool) :
    ∀ l : List Obj, sizeOf (List.filter p l) ≤ sizeOf l := by
  intro l
  induction l with
  | nil => simp [List.filter]
  | cons a as ih =>
    rw [List.filter_cons]
    by_cases h : p a = true
    · rw [if_pos h]
      simp only [List.cons.sizeOf_spec]
      omega
    · rw [if_neg h]
      simp only [List.cons.sizeOf_spec]
      omega

mutual

/-- The `not_` combinator of `Expr.parse` (lines 85-98): inverts a
`Relation` via the `inverse` table, applies De Morgan to `And`, and for `Or`
partitions the children into non-`And` ("notlogical") and `And` ("logical")
ones, negating each, then either conjoins the negated simples or distributes
them against each negated logical child.  Any other argument raises
`AssertionError` (line 98). -/
def not_ : Obj → Except PyErr Obj
  | .relation cmp arg const =>
      match inverse cmp with
      | some c => .ok (.relation c arg const)
      | none => .error (.keyError cmp)
  | .and args => do
      let l ← notList args
      .ok (.or l)
  | .or args => do
      let notlogical ← notList (args.filter (fun x => !x.isAnd))
      let logical ← notList (args.filter (fun x => x.isAnd))
      if logical.length = 0 then
        .ok (.and notlogical)
      else
        .ok (.or (logical.map (fun x => Obj.and ([x] ++ notlogical))))
  | _ => .error .assertionError
termination_by x => sizeOf x
decreasing_by
  all_goals simp_wf
  all_goals have h1 := sizeOf_filter_le (fun x => !x.isAnd) args
  all_goals have h2 := sizeOf_filter_le (fun x => x.isAnd) args
  all_goals omega

/-- Embeds the list comprehensions `[not_(x) for x in ...]` used by `not_`:
errors propagate out of the comprehension at the first failing element. -/
def notList : List Obj → Except PyErr (List Obj)
  | [] => .ok []
  | x :: xs => do
      let y ← not_ x
      let ys ← notList xs
      .ok (y :: ys)
termination_by l => sizeOf l
decreasing_by
  all_goals simp_wf
  all_goals try omega

end

/-- The `and_` combinator of `Expr.parse` (lines 100-113).  It separates the
arguments into `And`s, `Or`s and the rest, splices every `And`'s children
onto the plain ("notlogical") list, and appends `Or(*notlogical)` to the
`Or` group list.  Line 107 then calls `itertools.product` on the single
iterable `[x.args for x in ors]` (without `*`-unpacking), which yields one
1-tuple `(t,)` per group `t`; `And(*args)` therefore stores that raw tuple
as its sole argument — modelled by `Obj.tup`.  Finally an empty result
raises `AssertionError`, a singleton result is returned directly, and
otherwise the `Or` of all combinations is returned. -/
def and_ (exprs : List Obj) : Except PyErr Obj :=
  let ands := exprs.filter Obj.isAnd
  let ors := exprs.filter Obj.isOr
  let notlogical :=
    exprs.filter (fun x => !(x.isAnd || x.isOr)) ++ (ands.map Obj.args).flatten
  let orsFull := ors ++ [Obj.or notlogical]
  let outArgs := (orsFull.map Obj.args).map (fun t => Obj.and [Obj.tup t])
  match outArgs with
  | [] => .error .assertionError
  | [x] => .ok x
  | _ => .ok (.or outArgs)

/-- The `or_` combinator of `Expr.parse` (lines 115-120): the non-`Or`
arguments are kept first, in order, and then every `Or` argument's children
are appended (`for x in ors: others += x.args`); the result is the `Or` of
that list. -/
def or_ (exprs : List Obj) : Obj :=
  let ors := exprs.filter Obj.isOr
  let others := exprs.filter (fun x => !x.isOr) ++ (ors.map Obj.args).flatten
  Obj.or others

/-- Comparison operator kinds of the generic syntax tree (`ast.Eq`,
`ast.NotEq`, `ast.Lt`, `ast.LtE`, `ast.Gt`, `ast.GtE`, `ast.In`,
`ast.NotIn`, and any other comparison operator class). -/
inductive CmpOp where
  | eq | notEq | lt | ltE | gt | gtE | isIn | notIn | other
deriving Repr

/-- Unary operator kinds of the generic syntax tree (`ast.Not`, `ast.USub`,
`ast.UAdd`, `ast.Invert`, and any other unary operator class). -/
inductive UnOpKind where
  | not | uSub | uAdd | invert | other
deriving Repr

/-- Binary operator kinds of the generic syntax tree (`ast.Add` … `ast.BitXor`,
and any other binary operator class). -/
inductive BinOpKind where
  | add | sub | mult | div | floorDiv | mod | pow | bitOr | bitAnd | bitXor
  | other
deriving Repr

/-- Boolean operator kinds of the generic syntax tree (`ast.And`, `ast.Or`). -/
inductive BoolOpKind where
  | and | or
deriving Repr

/-- Generic syntax-tree nodes, mirroring the `ast` node classes that
`Expr.parse.recurse` inspects.  `compare` carries `node.left`, `node.ops`
and `node.comparators`; `call` models a call whose callee is a plain
`ast.Name` (an attribute callee would crash on `node.func.id` at line 262
before anything else happens, and no claim exercises it); `list` stands for
any node class that matches none of the translator's cases (here
`ast.List`). -/
inductive Ast where
  | num : Int → Ast
  | str : String → Ast
  | dict : List Ast → List Ast → Ast
  | set : List Ast → Ast
  | name : String → Ast
  | compare : Ast → List CmpOp → List Ast → Ast
  | boolOp : BoolOpKind → List Ast → Ast
  | unaryOp : UnOpKind → Ast → Ast
  | binOp : BinOpKind → Ast → Ast → Ast
  | call : String → List Ast → Ast
  | list : List Ast → Ast
deriving Repr

/-- The operator-symbol dispatch of the `ast.BinOp` branch (lines 234-245);
`none` corresponds to the `else: raise ExpressionError(...)` arm. -/
def binOpStr : BinOpKind → Option String
  | .add => some ("+")
  | .sub => some ("-")
  | .mult => some ("*")
  | .div => some ("/")
  | .floorDiv => some ("//")
  | .mod => some ("%")
  | .pow => some ("**")
  | .bitOr => some ("|")
  | .bitAnd => some ("&")
  | .bitXor => some ("^")
  | .other => none

/-- The values of the `Expr.recognized` registry (lines 58-61): both
`math.sqrt` and `numpy.sqrt` map to the name `"sqrt"`. -/
def recognizedValues : List String := ["sqrt", "sqrt"]

/-- The module-level globals of `expression.py`, used by `resolve`
(line 126, `globals()[node.id]`): the imports and the classes the module
defines.  None of these objects is a key of `Expr.recognized`, so for any
of them `Expr.recognized.get(...)` yields `None`. -/
def moduleGlobals : List String :=
  ["ast", "itertools", "math", "meta", "numpy", "ExpressionError", "Dim",
   "Expr", "Const", "Name", "Call", "UnaryOp", "BinOp", "Relation",
   "Interval", "Logical", "And", "Or"]

/-- Reads the `.value` attribute of a list of `Const` objects (the
`set(x.value for x in content)` comprehension of line 144); non-`Const`
entries cannot occur there because the branch is guarded by
`all(isinstance(x, Const) for x in content)`. -/
def constValues : List Obj → List Val
  | [] => []
  | .const v :: xs => v :: constValues xs
  | _ :: xs => constValues xs

mutual

/-- The `recurse` helper of `Expr.parse` (lines 131-271), translating one
generic syntax node under the `relations`/`intervals` context flags.  Each
arm mirrors one branch of the source's `if`/`elif` chain, in order; the
error messages keep the static prefix of the corresponding
`ExpressionError` (the appended source rendering is dropped).  Two source
defects are translated as they stand: the guards of the comparison branches
(lines 151 and 172) read `len(ops)` where `ops` is an unbound name — the
body uses `node.ops` — so any `ast.Compare` reached with `relations` (or,
failing that, `intervals`) truthy raises `NameError` before anything else;
and the final `else` (line 271) constructs
`ExpressionError("unhandled syntax in expression: ...")` without `raise`,
so the call falls off the end and returns `None`. -/
def recurse (node : Ast) (relations intervals : Bool) : Except PyErr Obj :=
  match node with
  | .num n => .ok (.const (.int n))
  | .str s => .ok (.const (.str s))
  | .dict keys _values =>
      -- line 138 accepts only the empty `ast.Dict`; a non-empty one matches
      -- no later branch and reaches the raise-less line 271, returning None
      if keys.length = 0 then .ok (.const (.set []))
      else .ok .pynone
  | .set elts => do
      let content ← recurseList elts false false
      if content.all Obj.isConst then
        .ok (.const (.set (pySet (constValues content))))
      else
        .error (.expressionError
          ("sets in expressions may not contain variable contents"))
  | .name id => .ok (.name id)
  | .compare _left _ops _comparators =>
      -- lines 151/172: evaluating the guard `len(ops) == 1` (resp. `== 2`)
      -- raises NameError because `ops` is unbound; with both flags falsy the
      -- chain falls through to the raise of lines 198-199
      if relations then .error (.nameError ("ops"))
      else if intervals then .error (.nameError ("ops"))
      else .error (.expressionError
        ("comparison operators are only allowed at the top of an expression and only interval ranges are allowed to be chained"))
  | .boolOp op values =>
      if relations then
        match op with
        | .and => do
            let l ← recurseList values true false
            and_ l
        | .or => do
            let l ← recurseList values true false
            .ok (or_ l)
      else
        .error (.expressionError
          ("logical operators are only allowed at the top of an expression"))
  | .unaryOp op operand =>
      match op with
      | .not =>
          if relations then do
            let v ← recurse operand true false
            not_ v
          else
            -- line 201 requires `relations`; otherwise the node falls
            -- through to the catch-all unary raise of line 231
            .error (.expressionError ("only unary operators supported"))
      | .uSub => do
          let content ← recurse operand false false
          -- line 216 returns `content` — the inner `UnaryOp` itself, not
          -- its operand — when the operand is already a unary minus
          if content.isUnaryOp && content.fcnAttr == "-" then .ok content
          else .ok (.unaryOp "-" [content])
      | .uAdd => recurse operand false false
      | .invert => do
          let content ← recurse operand false false
          if content.isUnaryOp && content.fcnAttr == "~" then .ok content
          else .ok (.unaryOp "~" [content])
      | .other =>
          .error (.expressionError ("only unary operators supported"))
  | .binOp op l r =>
      match binOpStr op with
      | none =>
          .error (.expressionError ("only binary operators supported"))
      | some fcn => do
          let left ← recurse l false false
          let right ← recurse r false false
          match left, right with
          | .const lv, .const rv =>
              -- line 250: both operands constant — fold via `calculate`
              Obj.const <$> calculate fcn lv rv
          | left, right =>
              -- lines 252-259; every `BinOp(fcn, T)` call passes the tuple
              -- `T` as one positional argument to `Call.__init__(self, fcn,
              -- *args)`, which therefore stores `args = (T,)` — modelled as
              -- `[Obj.tup T]`
              if left.isBinOp && left.fcnAttr == fcn
                  && right.isBinOp && right.fcnAttr == fcn then
                .ok (.binOp fcn [.tup (left.args ++ right.args)])
              else if left.isBinOp && left.fcnAttr == fcn then
                .ok (.binOp fcn [.tup (left.args ++ [right])])
              else if right.isBinOp && right.fcnAttr == fcn then
                .ok (.binOp fcn [.tup ([left] ++ right.args)])
              else
                .ok (.binOp fcn [.tup [left, right]])
  | .call funcName args =>
      -- lines 261-268; the callee is a plain name.  If it is one of the
      -- registry's canonical names it is accepted directly; otherwise
      -- `resolve` looks it up among the module globals (raising KeyError
      -- when absent) and `Expr.recognized.get` yields None for every global
      -- object, so line 267 raises.  `Call(fcn, tuple(...))` passes the
      -- tuple as a single positional to `Call.__init__(self, fcn, *args)`.
      if recognizedValues.contains funcName then do
        let l ← recurseList args false false
        .ok (.call funcName [.tup l])
      else if moduleGlobals.contains funcName then
        .error (.expressionError ("unhandled function in expression"))
      else
        .error (.keyError funcName)
  | .list _ =>
      -- line 271: `ExpressionError("unhandled syntax in expression: ...")`
      -- is constructed but not raised, so the function returns None
      .ok .pynone

/-- Embeds the list comprehensions over child nodes inside `recurse`
(`node.elts`, `node.values`, `node.args`): left-to-right, with the first
error unwinding the whole comprehension. -/
def recurseList (nodes : List Ast) (relations intervals : Bool) :
    Except PyErr (List Obj) :=
  match nodes with
  | [] => .ok []
  | x :: xs => do
      let y ← recurse x relations intervals
      let ys ← recurseList xs relations intervals
      .ok (y :: ys)

end

/-- The `Dim` wrapper (lines 40-49): the accumulator list `names` (which
nothing in `parse` ever appends to) together with the translated
expression. -/
structure Dim where
  names : List String
  expr : Obj
deriving Repr

/-- Statements as they occur in a decompiled function body or a parsed
module body: an expression statement (`ast.Expr`), a `return` statement
(`ast.Return`), or any other statement kind (e.g. `ast.Assign`). -/
inductive Stmt where
  | expr : Ast → Stmt
  | ret : Ast → Stmt
  | other : Stmt
deriving Repr

/-- Top-level input to `Expr.parse` (lines 273-284): a callable decompiled
to an `ast.FunctionDef` with the given body, or a one-line text parsed to a
module with the given body.  (The `ast.Lambda` arm of line 277 always
recurses into the lambda's body and can never reach the container-level
`TypeError`; no claim exercises it and it is not modelled.) -/
inductive Input where
  | func : List Stmt → Input
  | text : List Stmt → Input
deriving Repr

/-- The top-level `Expr.parse` (lines 273-284).  A function body must be
exactly one `return` statement and a text must parse to exactly one
expression statement; in every other case control falls through to the
`raise TypeError(...)` of line 284, the container-level error. -/
def parse : Input → Except PyErr Dim
  | .func body =>
      match body with
      | [Stmt.ret e] => do
          let x ← recurse e true true
          .ok ⟨[], x⟩
      | _ => .error (.typeError
          ("expression must be a one-line string, one-line function, or lambda expression"))
  | .text body =>
      match body with
      | [Stmt.expr e] => do
          let x ← recurse e true true
          .ok ⟨[], x⟩
      | _ => .error (.typeError
          ("expression must be a one-line string, one-line function, or lambda expression"))

/-- Models Python `str.format` on a template that contains no replacement
fields: nothing is substituted and the template is returned unchanged; the
argument (in the source, a generator over the children) is never consumed. -/
def pyFormatNoFields (template : String) : String := template

/-- `And.__str__` (lines 410-411): `" and ".format(str(x) for x in
self.args)` — the template has no replacement fields, so the result is the
constant template and the children are never rendered. -/
def andStr (_args : List Obj) : String := pyFormatNoFields (" and ")

/-- `Or.__str__` (lines 414-415): `" or ".format("(" + str(x) + ")" if
isinstance(x, And) else str(x) for x in self.args)` — likewise constant. -/
def orStr (_args : List Obj) : String := pyFormatNoFields (" or ")

/-- Sample relation used as a concrete logical operand in several results. -/
def relA : Obj := .relation "<" (.name "a") (.const (.int 1))

/-- Second sample relation. -/
def relB : Obj := .relation "<" (.name "b") (.const (.int 2))

/-- Third sample relation. -/
def relC : Obj := .relation "<" (.name "c") (.const (.int 3))

/-- Claim C1.  The claim states that a single-operator comparison translated
in relations context yields a canonically oriented `Relation`, e.g. that
both `5 < x` and `x > 5` yield `Relation(">", Name("x"), Const(5))`.  On the
code as written this is false: the guard of the relations branch (line 151)
evaluates `len(ops)` where `ops` is an unbound name (the branch body uses
`node.ops`), so translating any comparison raises `NameError` and no
`Relation` is ever produced. -/
theorem claim1_compare_raises_nameError :
    parse (.text [Stmt.expr (.compare (.num 5) [CmpOp.lt] [.name "x"])])
      = .error (.nameError "ops")
    ∧ parse (.text [Stmt.expr (.compare (.name "x") [CmpOp.gt] [.num 5])])
      = .error (.nameError "ops")
    ∧ (Except.error (PyErr.nameError "ops") : Except PyErr Dim)
        ≠ .ok ⟨[], .relation ">" (.name "x") (.const (.int 5))⟩ :=
  ⟨rfl, rfl, by simp⟩

/-- Claim C2.  The claim states that `(a + b) + c` and `a + (b + c)` both
translate to one 3-ary `BinOp("+")` with args `(Name a, Name b, Name c)`.
On the code as written this is false: `Call.__init__(self, fcn, *args)`
re-wraps the single tuple each `BinOp(...)` call site passes, so the `args`
attribute is a 1-tuple holding a nested tuple, and the two parenthesisations
do not even yield equal trees. -/
theorem claim2_binop_args_not_flattened :
    parse (.text [Stmt.expr
        (.binOp .add (.binOp .add (.name "a") (.name "b")) (.name "c"))])
      = .ok ⟨[], .binOp "+" [.tup [.tup [.name "a", .name "b"], .name "c"]]⟩
    ∧ parse (.text [Stmt.expr
        (.binOp .add (.name "a") (.binOp .add (.name "b") (.name "c")))])
      = .ok ⟨[], .binOp "+" [.tup [.name "a", .tup [.name "b", .name "c"]]]⟩
    ∧ (Obj.binOp "+" [.tup [.tup [.name "a", .name "b"], .name "c"]])
        ≠ (.binOp "+" [.name "a", .name "b", .name "c"])
    ∧ (Obj.binOp "+" [.tup [.tup [.name "a", .name "b"], .name "c"]])
        ≠ (.binOp "+" [.tup [.name "a", .tup [.name "b", .name "c"]]]) :=
  ⟨rfl, rfl, by simp, by simp⟩

/-- Claim C3.  The claim states that `Conjoin(And(A,B), C)` with no `Or`
operand returns `And(A, B, C)` (the Cartesian-product construction over
`Or` branches).  On the code as written this is false: line 107 passes the
list of branch groups to `itertools.product` without `*`-unpacking, so each
group tuple becomes the sole argument of an `And`, and the result is an
`And` holding one raw 3-tuple instead of three relations. -/
theorem claim3_conjoin_produces_tuple_arg :
    and_ [Obj.and [relA, relB], relC] = .ok (.and [.tup [relC, relA, relB]])
    ∧ and_ [Obj.and [relA, relB], relC] ≠ .ok (.and [relA, relB, relC]) :=
  ⟨rfl, by
    rw [show and_ [Obj.and [relA, relB], relC]
        = .ok (.and [.tup [relC, relA, relB]]) from rfl]
    simp [relA, relB, relC]⟩

/-- Claim C4.  The claim states that a double unary minus cancels, so that
`--x` translates to `Name("x")` (and likewise `~~x`).  On the code as
written this is false: line 216 returns `content` — the inner
`UnaryOp("-", x)` itself — instead of its operand, so `--x` translates to
`-x`. -/
theorem claim4_double_negation_not_cancelled :
    parse (.text [Stmt.expr (.unaryOp .uSub (.unaryOp .uSub (.name "x")))])
      = .ok ⟨[], .unaryOp "-" [.name "x"]⟩
    ∧ parse (.text [Stmt.expr (.unaryOp .invert (.unaryOp .invert (.name "x")))])
      = .ok ⟨[], .unaryOp "~" [.name "x"]⟩
    ∧ (Obj.unaryOp "-" [.name "x"]) ≠ .name "x" :=
  ⟨rfl, rfl, by simp⟩

/-- Claim C5.  The claim states that a node matching none of the
translator's cases makes the translation fail with the classified
"unhandled syntax in expression" error and that no value is returned.  On
the code as written this is false: line 271 constructs the
`ExpressionError` but never raises it, so `recurse` returns `None` and the
whole translation even succeeds, producing `Dim([], None)`. -/
theorem claim5_unhandled_syntax_returns_none :
    (∀ (elts : List Ast) (rel int : Bool),
      recurse (.list elts) rel int = .ok .pynone)
    ∧ parse (.text [Stmt.expr (.list [])]) = .ok ⟨[], .pynone⟩
    ∧ ∀ msg, (Except.ok Obj.pynone : Except PyErr Obj)
        ≠ .error (.expressionError msg) :=
  ⟨fun _ _ _ => rfl, rfl, fun _ => by simp⟩

/-- Claim C6.  The claim states that the chained comparison `0 <= x < 10`
translates in intervals context to
`Interval(Name("x"), Const(0), Const(10), lowclosed=true)` and
`0 < x <= 10` to the same with `lowclosed=false`.  On the code as written
this is false for the same reason as C1: the guards of both comparison
branches (lines 151 and 172) read the unbound name `ops`, so any chained
comparison raises `NameError` and no `Interval` is ever produced. -/
theorem claim6_interval_raises_nameError :
    parse (.text [Stmt.expr
        (.compare (.num 0) [CmpOp.ltE, CmpOp.lt] [.name "x", .num 10])])
      = .error (.nameError "ops")
    ∧ parse (.text [Stmt.expr
        (.compare (.num 0) [CmpOp.lt, CmpOp.ltE] [.name "x", .num 10])])
      = .error (.nameError "ops")
    ∧ (Except.error (PyErr.nameError "ops") : Except PyErr Dim)
        ≠ .ok ⟨[], .interval (.name "x") (.const (.int 0))
                     (.const (.int 10)) true⟩ :=
  ⟨rfl, rfl, by simp⟩

/-- Claim C7, counterexample.  The claim states that
`Disjoin(Or(A,B), C) = Or(A, B, C)`, preserving the order in which the
branches appeared in the arguments.  The code keeps the non-`Or` operands
first and appends the spliced `Or` branches after them, so the result is
`Or(C, A, B)`, not `Or(A, B, C)`. -/
theorem claim7_disjoin_order_counterexample :
    or_ [Obj.or [relA, relB], relC] ≠ Obj.or [relA, relB, relC] := by
  rw [show or_ [Obj.or [relA, relB], relC] = Obj.or [relC, relA, relB] from rfl]
  simp [relA, relB, relC]

/-- Claim C7, amended.  For any `Relation` nodes `A`, `B`, `C`, the
`Disjoin` combinator applied to `(Or(A,B), C)` flattens the nested `Or`
associatively into a single 3-ary `Or`, but places the operands that were
not `Or` nodes first: it returns `Or(C, A, B)`. -/
theorem claim7_disjoin_flattens (A B C : Obj)
    (_hA : A.isRelation = true) (_hB : B.isRelation = true)
    (hC : C.isRelation = true) :
    or_ [Obj.or [A, B], C] = Obj.or [C, A, B] := by
  cases C <;> simp [Obj.isRelation] at hC
  rfl

/-- Witness for the amended C7 at concrete relations. -/
theorem claim7_disjoin_flattens_witness :
    or_ [Obj.or [relA, relB], relC] = Obj.or [relC, relA, relB] :=
  claim7_disjoin_flattens relA relB relC rfl rfl rfl

/-- Claim C8.  For every supported binary arithmetic/bitwise operator, when
both translated operands are `Const` the translator folds them immediately
into the single `Const` produced by the operator's `calculate` entry —
integer, string and set arithmetic evaluated exactly, division by zero
propagated as its genuine error, and the two documented boundary markers
for outcomes outside the modelled value domain — and it never returns a
`BinOp` in that situation. -/
theorem claim8_constant_folding (op : BinOpKind) (s : String) (l r : Ast)
    (lv rv : Val) (rel int : Bool)
    (hs : binOpStr op = some s)
    (hl : recurse l false false = .ok (.const lv))
    (hr : recurse r false false = .ok (.const rv)) :
    recurse (.binOp op l r) rel int = Obj.const <$> calculate s lv rv
    ∧ ∀ f args, recurse (.binOp op l r) rel int ≠ .ok (.binOp f args) := by
  have h1 : recurse (.binOp op l r) rel int
      = Obj.const <$> calculate s lv rv := by
    rw [recurse, hs]
    rw [hl, hr]
    rfl
  refine ⟨h1, ?_⟩
  intro f args h
  rw [h1] at h
  cases hcalc : calculate s lv rv <;> rw [hcalc] at h <;> simp [Except.map] at h

/-- Witness for C8: translating `2 + 3` yields `Const(5)`. -/
theorem claim8_constant_folding_witness :
    recurse (.binOp .add (.num 2) (.num 3)) true true
      = .ok (.const (.int 5)) := by
  have h := claim8_constant_folding .add "+" (.num 2) (.num 3)
    (.int 2) (.int 3) true true rfl rfl rfl
  rw [h.1]
  rfl

/-- Claim C9.  When the top-level input is not reducible to exactly one
return statement (callable case) or one expression statement (text case),
`parse` fails with the container-level `TypeError` of line 284, an error
kind distinct from the grammar-level `ExpressionError`. -/
theorem claim9_container_error (bodyF bodyT : List Stmt)
    (hF : ∀ e, bodyF ≠ [Stmt.ret e])
    (hT : ∀ e, bodyT ≠ [Stmt.expr e]) :
    parse (.func bodyF) = .error (.typeError
      ("expression must be a one-line string, one-line function, or lambda expression"))
    ∧ parse (.text bodyT) = .error (.typeError
      ("expression must be a one-line string, one-line function, or lambda expression"))
    ∧ ∀ m m2, PyErr.typeError m ≠ PyErr.expressionError m2 := by
  refine ⟨?_, ?_, fun m m2 h => PyErr.noConfusion h⟩
  · match bodyF with
    | [] => rfl
    | [Stmt.expr e] => rfl
    | [Stmt.ret e] => exact absurd rfl (hF e)
    | [Stmt.other] => rfl
    | Stmt.expr e :: b :: t => rfl
    | Stmt.ret e :: b :: t => rfl
    | Stmt.other :: b :: t => rfl
  · match bodyT with
    | [] => rfl
    | [Stmt.expr e] => exact absurd rfl (hT e)
    | [Stmt.ret e] => rfl
    | [Stmt.other] => rfl
    | Stmt.expr e :: b :: t => rfl
    | Stmt.ret e :: b :: t => rfl
    | Stmt.other :: b :: t => rfl

/-- Witness for C9: a two-statement function body and a text whose only
statement is not an expression statement both hit the container error. -/
theorem claim9_container_error_witness :
    parse (.func [Stmt.ret (.num 1), Stmt.ret (.num 2)]) = .error (.typeError
      ("expression must be a one-line string, one-line function, or lambda expression"))
    ∧ parse (.text [Stmt.other]) = .error (.typeError
      ("expression must be a one-line string, one-line function, or lambda expression")) := by
  have h := claim9_container_error [Stmt.ret (.num 1), Stmt.ret (.num 2)]
    [Stmt.other] (fun e hc => by simp at hc) (fun e hc => by simp at hc)
  exact ⟨h.1, h.2.1⟩

/-- Claim C10.  The textual rendering of every `And` node is the constant
five-character string `" and "` and that of every `Or` node the constant
`" or "`, independently of the children, whose renderings never appear
(the `format` template has no replacement fields). -/
theorem claim10_logical_str_constant :
    (∀ args : List Obj, andStr args = " and ")
    ∧ (∀ args : List Obj, (andStr args).length = 5)
    ∧ (∀ args : List Obj, orStr args = " or ")
    ∧ (∀ args args2 : List Obj,
        andStr args = andStr args2 ∧ orStr args = orStr args2) :=
  ⟨fun _ => rfl, fun _ => rfl, fun _ => rfl, fun _ _ => ⟨rfl, rfl⟩⟩

end Histbook
